import Mathlib

/-!
Verification of the time/duration normalization pipeline of
`src/streamlit_app.py` (sleep tracker dashboard).

The pipeline is shallowly embedded as follows.

* A raw CSV cell is `Option String`: `none` stands for a genuinely absent
  cell (pandas `NA`), `some s` for a string-valued cell.
* `replaceSentinels` embeds line 52
  (`df.replace({"": pd.NA, "None": pd.NA, "none": pd.NA, "NaN": pd.NA, "nan": pd.NA})`)
  at the level of a single cell.
* The external parsers `pd.to_numeric` / `pd.to_datetime` with
  `errors="coerce"` are modelled as parameters returning `Option`:
  a parse failure is `none`.  A parsed date is an epoch-day index `Nat`
  (its value is irrelevant to durations), a parsed time-of-day is a
  second-of-day `Fin 86400`, a parsed number is a `Rat`.
* `compute_minutes` (lines 55–68) works on a parsed row.  The source
  combines `date` with each time-of-day in the same fixed timezone, so
  `slept_dt < start_dt` holds exactly when the slept time-of-day is
  strictly below the start time-of-day, and the elapsed seconds do not
  depend on the date; both facts are reflected directly in the embedding.
  `int(...)` on a Python float truncates toward zero, embedded by
  `ratTrunc`; `(...).total_seconds() // 60` floors, embedded by `Nat`
  division on the non-negative elapsed seconds.
* `to_dc_strings` (lines 72–86) is embedded with the timezone conversion
  plus `strftime` abstracted as a total function `fmt` from the IST
  instant (seconds since epoch) to the display string; any parse failure
  yields `(none, none)` exactly as the `except` branch does.
* `sort_values("_sort")` (lines 90–91) sorts ascending with missing keys
  last (`na_position="last"` is the pandas default); the sort key is the
  re-parse of the converted start display string, abstracted as a
  parameter `key : String → Option Int`.  The sort itself is embedded by
  `List.mergeSort` under `sortKeyLe`, which places `none` after every
  `some`.
* The four aggregate metrics (lines 113–126) and the severity styling
  `color_minutes` (lines 160–176) are embedded over the resolved
  duration column `List (Option Int)`.
-/

namespace Sleep

/-- One raw CSV row after column normalization (lines 47–51): the five
logical columns, each an optional string cell. -/
structure RawRow where
  date : Option String
  start : Option String
  slept : Option String
  duration_min : Option String
  note : Option String
deriving Repr, DecidableEq

/-- Line 52: replace the sentinel strings `""`, `"None"`, `"none"`,
`"NaN"`, `"nan"` by a true missing value.  Pandas `replace` with a dict
matches whole cell values, so this is exact string equality. -/
def replaceSentinels : Option String → Option String
  | none => none
  | some s =>
      if s = "" ∨ s = "None" ∨ s = "none" ∨ s = "NaN" ∨ s = "nan" then none
      else some s

/-- A row after sentinel replacement and parsing: `date` is an epoch-day
index, `start`/`slept` are seconds-of-day, `duration_min` is the
`pd.to_numeric` result (line 53). -/
structure Row where
  date : Option Nat
  start : Option (Fin 86400)
  slept : Option (Fin 86400)
  duration_min : Option Rat
  note : Option String

/-- Python `int()` applied to a (rational-valued) number: truncation
toward zero. -/
def ratTrunc (q : Rat) : Int := q.num.tdiv q.den

/-- Lines 52–53 plus the per-row parses inside `compute_minutes` /
`to_dc_strings`: sentinel replacement on every column, then the external
parsers (modelled by `pdDate`, `pdTime`, `pdNum`, each `none` on
failure, as `errors="coerce"` yields `NaT`/`NaN`). -/
def parseRow (pdDate : String → Option Nat) (pdTime : String → Option (Fin 86400))
    (pdNum : String → Option Rat) (r : RawRow) : Row :=
  { date := (replaceSentinels r.date).bind pdDate
    start := (replaceSentinels r.start).bind pdTime
    slept := (replaceSentinels r.slept).bind pdTime
    duration_min := (replaceSentinels r.duration_min).bind pdNum
    note := replaceSentinels r.note }

/-- Lines 55–68, `compute_minutes`: if `duration_min` is present use
`int(duration_min)`; else combine `date` with `start` and `slept` in the
source timezone, add one day to `slept` when it compares below `start`,
and return the elapsed whole minutes; any parse failure ends in the
`except` branch, i.e. missing. -/
def compute_minutes (row : Row) : Option Int :=
  match row.duration_min with
  | some q => some (ratTrunc q)
  | none =>
      match row.date, row.start, row.slept with
      | some _, some s, some sl =>
          let slept' : Nat := if sl.val < s.val then sl.val + 86400 else sl.val
          some (((slept' - s.val) / 60 : Nat) : Int)
      | _, _, _ => none

/-- Lines 72–86, `to_dc_strings`: on a full parse of `date`, `start`,
`slept`, build the two IST instants (seconds since epoch), apply the
rollover, and format both in the target timezone (`fmt` abstracts
`astimezone(DC).strftime`); any parse failure yields `(None, None)`. -/
def to_dc_strings (fmt : Nat → String) (row : Row) : Option String × Option String :=
  match row.date, row.start, row.slept with
  | some d, some s, some sl =>
      let startInstant := d * 86400 + s.val
      let sleptInstant := d * 86400 + sl.val + (if sl.val < s.val then 86400 else 0)
      (some (fmt startInstant), some (fmt sleptInstant))
  | _, _, _ => (none, none)

/-- One row of the processed table: the two converted display strings,
the resolved duration, and the note. -/
structure OutRow where
  start_dc : Option String
  slept_dc : Option String
  duration_min : Option Int
  note : Option String

/-- Lines 70, 88–89: apply `compute_minutes` and `to_dc_strings` to one
row. -/
def processRow (fmt : Nat → String) (row : Row) : OutRow :=
  let dc := to_dc_strings fmt row
  { start_dc := dc.1
    slept_dc := dc.2
    duration_min := compute_minutes row
    note := row.note }

/-- Line 90: the sort key of one output row, `pd.to_datetime(start_dc,
errors="coerce")` abstracted as `key`; a missing display string is
`NaT`, i.e. `none`. -/
def sortKey (key : String → Option Int) (r : OutRow) : Option Int :=
  r.start_dc.bind key

/-- The order used by `sort_values` on the `_sort` column: ascending,
`NaT` (here `none`) after every valid key (`na_position="last"`). -/
def sortKeyLe : Option Int → Option Int → Bool
  | some x, some y => x ≤ y
  | some _, none => true
  | none, some _ => false
  | none, none => true

/-- Lines 43–93, `load_data` after the fetch: parse each row, derive the
duration and converted strings, and sort by the parsed converted start
instant with missing keys last. -/
def load_data (pdDate : String → Option Nat) (pdTime : String → Option (Fin 86400))
    (pdNum : String → Option Rat) (fmt : Nat → String) (key : String → Option Int)
    (rows : List RawRow) : List OutRow :=
  ((rows.map (parseRow pdDate pdTime pdNum)).map (processRow fmt)).mergeSort
    (fun a b => sortKeyLe (sortKey key a) (sortKey key b))

/-- Line 113: `df["duration_min"].dropna()` over the duration column. -/
def durations (col : List (Option Int)) : List Int := col.filterMap id

/-- Line 116: `int(durations.mean()) if len(durations) else 0`. -/
def avgMetric (col : List (Option Int)) : Int :=
  let ds := durations col
  if ds.length = 0 then 0 else ratTrunc ((ds.sum : Rat) / (ds.length : Rat))

/-- Line 119: `int(durations.iloc[-1]) if len(durations) else 0`. -/
def latestMetric (col : List (Option Int)) : Int :=
  ((durations col).getLast?).getD 0

/-- Line 122: `int(durations.min()) if len(durations) else 0`. -/
def minMetric (col : List (Option Int)) : Int :=
  ((durations col).min?).getD 0

/-- Line 125: `int(durations.max()) if len(durations) else 0`. -/
def maxMetric (col : List (Option Int)) : Int :=
  ((durations col).max?).getD 0

/-- Lines 160–176, one iteration of the loop in `color_minutes`:
`int(v)` fails on a missing value (empty style string, the placeholder);
otherwise the four-way `if`/`elif` chain on the integer. -/
def color_minutes_cell (v : Option Int) : String :=
  match v with
  | none => ""
  | some x =>
      if x < 20 then "background-color:#065f46;color:#ecfdf5;"
      else if 20 ≤ x ∧ x ≤ 45 then "background-color:#92400e;color:#fffbeb;"
      else if 45 < x ∧ x ≤ 60 then "background-color:#7c2d12;color:#fff7ed;"
      else "background-color:#7f1d1d;color:#fef2f2;"

/-- Lines 160–176, `color_minutes` over the whole `Minutes` column. -/
def color_minutes (vals : List (Option Int)) : List String :=
  vals.map color_minutes_cell

/-- The spec's four ordered severity tiers, written from the spec's
boundary description (`<20`, `20–45` inclusive, `(45,60]`, `>60`), to be
compared with the styling function of the source. -/
def specTier (x : Int) : Fin 4 :=
  if x < 20 then 0 else if x ≤ 45 then 1 else if x ≤ 60 then 2 else 3

/-- The style string the source attaches to each tier. -/
def tierStyle : Fin 4 → String
  | 0 => "background-color:#065f46;color:#ecfdf5;"
  | 1 => "background-color:#92400e;color:#fffbeb;"
  | 2 => "background-color:#7c2d12;color:#fff7ed;"
  | 3 => "background-color:#7f1d1d;color:#fef2f2;"

/-! ## Helper lemmas -/

/-- Python `int()` truncation agrees with the floor on non-negative
rationals. -/
theorem ratTrunc_eq_floor {q : Rat} (hq : 0 ≤ q) : ratTrunc q = ⌊q⌋ := by
  rw [Rat.floor_def, ratTrunc]
  exact Int.tdiv_eq_ediv (Rat.num_nonneg.mpr hq) (Int.ofNat_nonneg q.den)

/-- A duration derived from timestamps (no explicit `duration_min`) lies
between 0 and 1439 minutes. -/
theorem derived_duration_bounds (row : Row) (m : Int) (hd : row.duration_min = none)
    (hm : compute_minutes row = some m) : 0 ≤ m ∧ m ≤ 1439 := by
  rcases row with ⟨dte, st, sl, dm, note⟩
  cases dm with
  | some q => simp at hd
  | none =>
    cases dte <;> cases st <;> cases sl <;>
      simp only [compute_minutes, Option.some.injEq, reduceCtorEq] at hm
    case some.some.some d s t =>
      have hs := s.isLt
      have ht := t.isLt
      by_cases hlt : t.val < s.val <;> simp only [hlt, if_true, if_false] at hm <;> omega

/-! ## Claims -/

/-- C1: for a row without explicit `duration_min` whose `date`, `start`
and `slept` all parse, the resolved duration is the floored whole-minute
difference between the start instant and the slept instant, where one
day is added to the slept instant exactly when its time-of-day is
strictly earlier than the start's; in particular `date=2024-01-01,
start=23:50, slept=00:10` resolves to 20 minutes. -/
theorem c1_derived_duration :
    (∀ (d : Nat) (s sl : Fin 86400) (note : Option String),
      compute_minutes ⟨some d, some s, some sl, none, note⟩ =
        some ((((d * 86400 + sl.val + (if sl.val < s.val then 86400 else 0)) -
          (d * 86400 + s.val)) / 60 : Nat) : Int)) ∧
    compute_minutes ⟨some 19723, some 85800, some 600, none, none⟩ = some 20 := by
  constructor
  · intro d s sl note
    have h : (if sl.val < s.val then sl.val + 86400 else sl.val) - s.val =
        (d * 86400 + sl.val + (if sl.val < s.val then 86400 else 0)) -
          (d * 86400 + s.val) := by
      split <;> omega
    simp only [compute_minutes, h]
  · decide

/-- C2: whenever `duration_min` parses as a number, the resolved
duration is that value truncated toward zero, whatever the `date`,
`start`, `slept` and `note` cells hold: those fields are not consulted
and cannot change the result or make it missing. -/
theorem c2_explicit_duration_passthrough
    (dte : Option Nat) (st sl : Option (Fin 86400)) (q : Rat) (note : Option String) :
    compute_minutes ⟨dte, st, sl, some q, note⟩ = some (ratTrunc q) := rfl

/-- C3: every resolved duration falls into exactly one of four ordered
tiers (`x < 20`, `20 ≤ x ≤ 45`, `45 < x ≤ 60`, `x > 60`), the four tier
styles are pairwise distinct, a missing duration gets the empty
placeholder style, and the boundary values land as 19 → best, 20 →
second, 45 → second, 46 → third, 60 → third, 61 → fourth. -/
theorem c3_severity_tiers :
    (∀ x : Int, color_minutes_cell (some x) = tierStyle (specTier x)) ∧
    color_minutes_cell none = "" ∧
    Function.Injective tierStyle ∧
    specTier 19 = 0 ∧ specTier 20 = 1 ∧ specTier 45 = 1 ∧
    specTier 46 = 2 ∧ specTier 60 = 2 ∧ specTier 61 = 3 := by
  refine ⟨?_, rfl, by decide, by decide, by decide, by decide, by decide, by decide, by decide⟩
  intro x
  simp only [color_minutes_cell, specTier]
  split_ifs <;> first | rfl | omega

/-- C4: the processed table is sorted ascending by the parsed
converted-start instant, and a row whose converted-start key is missing
never precedes a row with a valid key: for every pair of rows in output
order, a missing key on the earlier row forces a missing key on the
later one, and two valid keys are non-decreasing. -/
theorem c4_sort_missing_last
    (pdDate : String → Option Nat) (pdTime : String → Option (Fin 86400))
    (pdNum : String → Option Rat) (fmt : Nat → String) (key : String → Option Int)
    (rows : List RawRow) :
    List.Pairwise (fun a b : OutRow =>
        (sortKey key a = none → sortKey key b = none) ∧
        ∀ x y : Int, sortKey key a = some x → sortKey key b = some y → x ≤ y)
      (load_data pdDate pdTime pdNum fmt key rows) := by
  have trans : ∀ a b c : OutRow,
      sortKeyLe (sortKey key a) (sortKey key b) = true →
      sortKeyLe (sortKey key b) (sortKey key c) = true →
      sortKeyLe (sortKey key a) (sortKey key c) = true := by
    intro a b c
    cases sortKey key a <;> cases sortKey key b <;> cases sortKey key c <;>
      simp [sortKeyLe] <;> omega
  have total : ∀ a b : OutRow,
      (sortKeyLe (sortKey key a) (sortKey key b) ||
       sortKeyLe (sortKey key b) (sortKey key a)) = true := by
    intro a b
    cases sortKey key a <;> cases sortKey key b <;> simp [sortKeyLe] <;> omega
  have h := @List.sorted_mergeSort OutRow
    (fun a b => sortKeyLe (sortKey key a) (sortKey key b)) trans total
    ((rows.map (parseRow pdDate pdTime pdNum)).map (processRow fmt))
  refine h.imp ?_
  intro a b hab
  constructor
  · intro ha
    cases hb : sortKey key b with
    | none => rfl
    | some y => rw [ha, hb] at hab; simp [sortKeyLe] at hab
  · intro x y hx hy
    rw [hx, hy] at hab
    simpa [sortKeyLe] using hab

/-- C5: over the duration column `[10, 20, 30]` the four metrics are
mean 20, latest 30 (the last row), minimum 10, maximum 30; and whenever
no row has a resolved duration, all four metrics report 0. -/
theorem c5_metrics_values :
    (avgMetric [some 10, some 20, some 30] = 20 ∧
     latestMetric [some 10, some 20, some 30] = 30 ∧
     minMetric [some 10, some 20, some 30] = 10 ∧
     maxMetric [some 10, some 20, some 30] = 30) ∧
    (∀ col : List (Option Int), durations col = [] →
      avgMetric col = 0 ∧ latestMetric col = 0 ∧ minMetric col = 0 ∧ maxMetric col = 0) := by
  constructor
  · refine ⟨?_, by decide, by decide, by decide⟩
    have h : ((durations [some 10, some 20, some 30]).sum : Rat) /
        ((durations [some 10, some 20, some 30]).length : Rat) = ((20 : Int) : Rat) := by
      show ((60 : Int) : Rat) / ((3 : Nat) : Rat) = ((20 : Int) : Rat)
      norm_num
    simp only [avgMetric]
    rw [if_neg (by decide), h]
    decide
  · intro col h
    refine ⟨?_, ?_, ?_, ?_⟩ <;> simp [avgMetric, latestMetric, minMetric, maxMetric, h]

/-- Witness for C5 at the concrete empty-duration column `[none]`. -/
theorem c5_metrics_values_witness :
    durations ([none] : List (Option Int)) = [] ∧
    avgMetric [none] = 0 ∧ latestMetric [none] = 0 ∧
    minMetric [none] = 0 ∧ maxMetric [none] = 0 := by
  have h := c5_metrics_values.2 [none] rfl
  exact ⟨rfl, h.1, h.2.1, h.2.2.1, h.2.2.2⟩

/-- C6 fails on the code: the reported average over durations
`[10, 21]` (mean 15.5) is 15, not the nearest-minute rounding 16 —
`int(durations.mean())` truncates. -/
theorem c6_average_truncates_not_rounds :
    avgMetric [some 10, some 21] = 15 ∧ avgMetric [some 10, some 21] ≠ 16 := by
  have h : ((durations [some 10, some 21]).sum : Rat) /
      ((durations [some 10, some 21]).length : Rat) = (31 : Rat) / 2 := by
    show ((31 : Int) : Rat) / ((2 : Nat) : Rat) = (31 : Rat) / 2
    norm_num
  have hv : avgMetric [some 10, some 21] = 15 := by
    simp only [avgMetric]
    rw [if_neg (by decide), h]
    norm_num [ratTrunc]
    decide
  exact ⟨hv, by rw [hv]; decide⟩

/-- C6 amended: for every non-empty duration multiset with non-negative
sum, the reported average is the arithmetic mean truncated toward zero,
i.e. the floor of the mean (so `[10, 21]` with mean 15.5 reports 15,
not 16). -/
theorem c6_average_is_floor_of_mean (col : List (Option Int))
    (h1 : durations col ≠ []) (h2 : 0 ≤ (durations col).sum) :
    avgMetric col = ⌊((durations col).sum : Rat) / ((durations col).length : Rat)⌋ := by
  have hlen : (durations col).length ≠ 0 := fun h => h1 (List.length_eq_zero.mp h)
  have hq : (0 : Rat) ≤ ((durations col).sum : Rat) / ((durations col).length : Rat) := by
    apply div_nonneg
    · exact_mod_cast h2
    · positivity
  simp only [avgMetric]
  rw [if_neg hlen]
  exact ratTrunc_eq_floor hq

/-- Witness for C6's amended statement at the column `[10, 21]`. -/
theorem c6_average_is_floor_of_mean_witness :
    durations [some 10, some 21] ≠ [] ∧ (0 : Int) ≤ (durations [some 10, some 21]).sum ∧
    avgMetric [some 10, some 21] =
      ⌊((durations [some 10, some 21]).sum : Rat) / ((durations [some 10, some 21]).length : Rat)⌋ :=
  ⟨by decide, by decide, c6_average_is_floor_of_mean [some 10, some 21] (by decide) (by decide)⟩

/-- C7 fails on the code: the sentinel replacement matches only the
exact strings `""`, `"None"`, `"none"`, `"NaN"`, `"nan"`; the casing
`"NONE"` is not normalized to a missing value but kept verbatim. -/
theorem c7_uppercase_sentinel_kept :
    replaceSentinels (some "NONE") = some "NONE" ∧ replaceSentinels (some "NONE") ≠ none := by
  constructor <;> decide

/-- C7 amended: a string cell is normalized to a true missing value
exactly when it is one of the five literal sentinels `""`, `"None"`,
`"none"`, `"NaN"`, `"nan"`; other casings (e.g. `"NONE"`, `"NAN"`) are
kept; a genuinely absent cell stays missing. -/
theorem c7_exact_sentinels_normalized :
    (∀ s : String, replaceSentinels (some s) = none ↔
      (s = "" ∨ s = "None" ∨ s = "none" ∨ s = "NaN" ∨ s = "nan")) ∧
    replaceSentinels none = none := by
  refine ⟨?_, rfl⟩
  intro s
  simp only [replaceSentinels]
  split <;> simp_all

/-- C8: a parse failure in a row never escapes duration resolution or
timezone conversion: with no explicit `duration_min`, a failed parse of
`date`, `start` or `slept` makes the resolved duration missing; a
failed parse makes both converted display strings missing; and the
processed table is a permutation of the per-row processed rows, so
every row — parse failure or not — is still included in the output. -/
theorem c8_parse_failure_recovery :
    (∀ row : Row, row.duration_min = none →
      (row.date = none ∨ row.start = none ∨ row.slept = none) →
      compute_minutes row = none) ∧
    (∀ (fmt : Nat → String) (row : Row),
      (row.date = none ∨ row.start = none ∨ row.slept = none) →
      to_dc_strings fmt row = (none, none)) ∧
    (∀ (pdDate : String → Option Nat) (pdTime : String → Option (Fin 86400))
      (pdNum : String → Option Rat) (fmt : Nat → String) (key : String → Option Int)
      (rows : List RawRow),
      (load_data pdDate pdTime pdNum fmt key rows).Perm
        ((rows.map (parseRow pdDate pdTime pdNum)).map (processRow fmt))) := by
  refine ⟨?_, ?_, ?_⟩
  · rintro ⟨dte, st, sl, dm, note⟩ hd h
    cases dm with
    | some q => simp at hd
    | none =>
      rcases h with h | h | h <;> simp_all [compute_minutes]
  · rintro fmt ⟨dte, st, sl, dm, note⟩ h
    rcases h with h | h | h <;> simp_all [to_dc_strings]
  · intro pdDate pdTime pdNum fmt key rows
    exact List.mergeSort_perm _ _

/-- Witness for C8 at concrete rows with failed parses. -/
theorem c8_parse_failure_recovery_witness :
    compute_minutes ⟨none, some 0, some 0, none, none⟩ = none ∧
    to_dc_strings (fun _ => "x") ⟨some 1, none, some 0, none, none⟩ = (none, none) :=
  ⟨c8_parse_failure_recovery.1 ⟨none, some 0, some 0, none, none⟩ rfl (Or.inl rfl),
   c8_parse_failure_recovery.2.1 (fun _ => "x") ⟨some 1, none, some 0, none, none⟩
     (Or.inr (Or.inl rfl))⟩

/-- C9 fails on the code: a negative explicit `duration_min` passes
through untouched, so the resolved duration of a row with
`duration_min = -5` is `-5`, which is negative. -/
theorem c9_negative_explicit_duration :
    compute_minutes ⟨none, none, none, some (-5 : Rat), none⟩ = some (-5) ∧
    ¬ (0 : Int) ≤ -5 := by
  constructor <;> decide

/-- C9 amended: a present resolved duration is an integer that is
non-negative whenever it was derived from timestamps or the explicit
`duration_min` is non-negative; a negative explicit `duration_min` is
the one way a negative resolved duration arises. -/
theorem c9_nonneg_unless_negative_explicit :
    (∀ (row : Row) (m : Int), row.duration_min = none →
      compute_minutes row = some m → 0 ≤ m) ∧
    (∀ (row : Row) (q : Rat) (m : Int), row.duration_min = some q → 0 ≤ q →
      compute_minutes row = some m → 0 ≤ m) := by
  constructor
  · intro row m hd hm
    exact (derived_duration_bounds row m hd hm).1
  · rintro ⟨dte, st, sl, dm, note⟩ q m hd hq hm
    simp only at hd
    subst hd
    simp only [compute_minutes, Option.some.injEq] at hm
    subst hm
    rw [ratTrunc_eq_floor hq]
    exact Int.le_floor.mpr (by exact_mod_cast hq)

/-- Witness for C9's amended statement at concrete rows. -/
theorem c9_nonneg_unless_negative_explicit_witness :
    compute_minutes ⟨some 0, some 0, some 0, none, none⟩ = some 0 ∧ (0 : Int) ≤ 0 ∧
    compute_minutes ⟨none, none, none, some (7 : Rat), none⟩ = some 7 ∧ (0 : Int) ≤ 7 :=
  ⟨by decide, c9_nonneg_unless_negative_explicit.1 ⟨some 0, some 0, some 0, none, none⟩ 0
      rfl (by decide),
   by decide, c9_nonneg_unless_negative_explicit.2 ⟨none, none, none, some (7 : Rat), none⟩ 7 7
      rfl (by norm_num) (by decide)⟩

/-- C10: a duration derived from timestamps (no explicit
`duration_min`) always lies between 0 and 1439 minutes: the single-day
rollover keeps the end instant within 24 hours at or after the start
instant. -/
theorem c10_derived_duration_in_one_day (row : Row) (m : Int)
    (hd : row.duration_min = none) (hm : compute_minutes row = some m) :
    0 ≤ m ∧ m ≤ 1439 :=
  derived_duration_bounds row m hd hm

/-- Witness for C10 at a concrete rollover row (23:50 → 00:10). -/
theorem c10_derived_duration_in_one_day_witness :
    compute_minutes ⟨some 0, some 85800, some 600, none, none⟩ = some 20 ∧
    (0 : Int) ≤ 20 ∧ (20 : Int) ≤ 1439 :=
  ⟨by decide,
   c10_derived_duration_in_one_day ⟨some 0, some 85800, some 600, none, none⟩ 20 rfl (by decide)⟩

end Sleep
